import Mathlib

/-!
Verification of the Smart-Agriculture calibration and hysteresis policy core
(`embedded/main/sensors.cpp`, `embedded/main/actuators.cpp`, thresholds from
`embedded/main/config.h`).

Embedding conventions:
* C `float` values are embedded as exact rationals (`ℚ`); the only non-numeric
  float the code distinguishes is NaN (via `isnan` on the DHT22 readings), so a
  possibly-NaN float field is embedded as `Option ℚ` with `none` playing NaN.
  As in IEEE/C, every ordered comparison against NaN is false (`fLt`, `fGt`,
  `fLe`, `fGe` below).
* C `int`/`long` values are embedded as ideal integers (`ℤ`); C integer
  division truncates toward zero, which is `Int.tdiv`.
* The module-global `ActuatorState state` mutated by `actuators_auto_control`
  is embedded by explicit state passing: each C block that mutates the global
  becomes a function `ActuatorState → SensorData → ActuatorState`, and the
  whole `void actuators_auto_control(const SensorData&)` becomes the
  composition of the four blocks guarded by the `!data.valid` early return.
* `Serial` printing is ignored (the spec places logging output out of scope);
  the caller-visible outcome of a call is the new global state together with
  the C function's return value, which for `actuators_auto_control` is `void`,
  embedded as `Unit` (see `actuators_auto_control_call`).
-/

/-- A possibly-NaN C float: `none` models NaN, `some q` a numeric value. -/
abbrev FloatVal := Option ℚ

/-- C comparison `x < c` on a possibly-NaN float: false when `x` is NaN. -/
def fLt (x : FloatVal) (c : ℚ) : Bool :=
  match x with
  | none => false
  | some v => decide (v < c)

/-- C comparison `x > c` on a possibly-NaN float: false when `x` is NaN. -/
def fGt (x : FloatVal) (c : ℚ) : Bool :=
  match x with
  | none => false
  | some v => decide (c < v)

/-- C comparison `x <= c` on a possibly-NaN float: false when `x` is NaN. -/
def fLe (x : FloatVal) (c : ℚ) : Bool :=
  match x with
  | none => false
  | some v => decide (v ≤ c)

/-- C comparison `x >= c` on a possibly-NaN float: false when `x` is NaN. -/
def fGe (x : FloatVal) (c : ℚ) : Bool :=
  match x with
  | none => false
  | some v => decide (c ≤ v)

/-! Configuration constants from `config.h`. -/

/-- ADC count when the soil is completely dry (`config.h`). -/
def SOIL_DRY_VALUE : ℤ := 3200

/-- ADC count when the soil is saturated (`config.h`). -/
def SOIL_WET_VALUE : ℤ := 1500

/-- Reference voltage of the pH sensor, 3.3 V (`config.h`); written `mkRat 33
10` so that the kernel can evaluate it inside `decide`. -/
def PH_SENSOR_VREF : ℚ := mkRat 33 10

/-- Calibration offset of the pH sensor, 0.0 (`config.h`). -/
def PH_OFFSET : ℚ := 0

/-- Soil-moisture percentage below which irrigation starts (`config.h`). -/
def SOIL_MOISTURE_LOW : ℤ := 30

/-- Soil-moisture percentage above which irrigation stops (`config.h`). -/
def SOIL_MOISTURE_HIGH : ℤ := 70

/-- Temperature (°C) above which the ventilation fan turns on (`config.h`). -/
def TEMP_HIGH_THRESH : ℚ := 35

/-- Temperature (°C) below which the ventilation fan may turn off (`config.h`). -/
def TEMP_LOW_THRESH : ℚ := 30

/-- Relative-humidity percentage regarded as high (`config.h`). -/
def HUMIDITY_HIGH_THRESH : ℚ := 85

/-- Light ADC level below which the grow-light turns on (`config.h`). -/
def LIGHT_LOW_THRESH : ℤ := 300

/-- Light ADC level above which the grow-light turns off (`config.h`). -/
def LIGHT_HIGH_THRESH : ℤ := 500

/-- pH below which the fertiliser pump turns on, 5.5 (`config.h`); written
`mkRat 11 2` so that the kernel can evaluate it inside `decide`. -/
def PH_LOW_THRESH : ℚ := mkRat 11 2

/-- pH above which the fertiliser pump turns off (`config.h`). -/
def PH_HIGH_THRESH : ℚ := 7

/-- Rain ADC level below which rain is detected (`config.h`). -/
def RAIN_THRESHOLD : ℤ := 1000

/-- Arduino `constrain(amt, low, high)` on C integers:
`(amt < low) ? low : ((amt > high) ? high : amt)`. -/
def constrain (x lo hi : ℤ) : ℤ :=
  if x < lo then lo else if x > hi then hi else x

/-- Arduino `constrain(amt, low, high)` on C floats (numeric case). -/
def constrainQ (x lo hi : ℚ) : ℚ :=
  if x < lo then lo else if x > hi then hi else x

/-- Arduino `map(x, in_min, in_max, out_min, out_max)`:
`(x - in_min) * (out_max - out_min) / (in_max - in_min) + out_min` on C
`long` integers; C division truncates toward zero (`Int.tdiv`). -/
def arduinoMap (x inMin inMax outMin outMax : ℤ) : ℤ :=
  ((x - inMin) * (outMax - outMin)).tdiv (inMax - inMin) + outMin

/-- `soil_adc_to_percent` from `sensors.cpp`: linear `map` of the raw ADC
count from the dry/wet calibration pair onto 0..100, then `constrain`
to [0, 100]. -/
def soil_adc_to_percent (rawAdc : ℤ) : ℤ :=
  let percent := arduinoMap rawAdc SOIL_DRY_VALUE SOIL_WET_VALUE 0 100
  constrain percent 0 100

/-- `ph_adc_to_value` from `sensors.cpp`:
`voltage = rawAdc * PH_SENSOR_VREF / 4095.0`, `ph = 3.5 * voltage + PH_OFFSET`
(the slope 3.5 written as `7/2`), then `constrain` to [0.0, 14.0]. -/
def ph_adc_to_value (rawAdc : ℤ) : ℚ :=
  let voltage := (rawAdc : ℚ) * PH_SENSOR_VREF / 4095
  let ph := 7 / 2 * voltage + PH_OFFSET
  constrainQ ph 0 14

/-- Modelled from the spec (§4.1, for comparison in claim C6): the exact linear
function `slope * (raw * referenceVoltage / maxRawCount) + offset` at the fixed
configuration slope = 3.5, referenceVoltage = `PH_SENSOR_VREF`,
maxRawCount = 4095, offset = `PH_OFFSET`. -/
def spec_phLinear (rawAdc : ℤ) : ℚ :=
  7 / 2 * ((rawAdc : ℚ) * PH_SENSOR_VREF / 4095) + PH_OFFSET

/-- `struct SensorData` from `sensors.h`. `temperature` and `humidity` come
from the DHT22 and may be NaN (`none`); the remaining fields are set from
ADC reads and conversions. -/
structure SensorData where
  temperature : FloatVal
  humidity : FloatVal
  soilMoisture : ℤ
  phValue : ℚ
  lightLevel : ℤ
  rainLevel : ℤ
  isRaining : Bool
  valid : Bool
deriving DecidableEq

/-- `sensors_read` from `sensors.cpp`. Hardware inputs (the two DHT22 reads
and the four `analogRead` results) are passed as arguments; `data` is the
caller-supplied struct being filled in place, so fields not assigned before an
early return keep their previous values. Returns the updated struct together
with the C function's `bool` result. -/
def sensors_read (dhtTemp dhtHum : FloatVal) (soilRaw phRaw lightRaw rainRaw : ℤ)
    (data : SensorData) : SensorData × Bool :=
  let data := { data with temperature := dhtTemp, humidity := dhtHum }
  if data.temperature.isNone || data.humidity.isNone then
    ({ data with valid := false }, false)
  else
    let data := { data with soilMoisture := soil_adc_to_percent soilRaw }
    let data := { data with phValue := ph_adc_to_value phRaw }
    let data := { data with lightLevel := lightRaw }
    let data := { data with rainLevel := rainRaw,
                            isRaining := decide (rainRaw < RAIN_THRESHOLD) }
    let ok := fGt data.temperature (-40) && fLt data.temperature 80
              && fGe data.humidity 0 && fLe data.humidity 100
              && decide (0 ≤ data.soilMoisture) && decide (data.soilMoisture ≤ 100)
              && decide (0 ≤ data.phValue) && decide (data.phValue ≤ 14)
    ({ data with valid := ok }, ok)

/-- `struct ActuatorState` from `actuators.h`. -/
structure ActuatorState where
  pumpOn : Bool
  fertOn : Bool
  lightOn : Bool
  fanOn : Bool
deriving DecidableEq

/-- `actuators_set_pump` from `actuators.cpp` (state effect; the relay write
is hardware output). -/
def actuators_set_pump (st : ActuatorState) (b : Bool) : ActuatorState :=
  { st with pumpOn := b }

/-- `actuators_set_fert` from `actuators.cpp` (state effect). -/
def actuators_set_fert (st : ActuatorState) (b : Bool) : ActuatorState :=
  { st with fertOn := b }

/-- `actuators_set_light` from `actuators.cpp` (state effect). -/
def actuators_set_light (st : ActuatorState) (b : Bool) : ActuatorState :=
  { st with lightOn := b }

/-- `actuators_set_fan` from `actuators.cpp` (state effect). -/
def actuators_set_fan (st : ActuatorState) (b : Bool) : ActuatorState :=
  { st with fanOn := b }

/-- Water-pump block of `actuators_auto_control` (`actuators.cpp`). -/
def pumpStep (st : ActuatorState) (data : SensorData) : ActuatorState :=
  if !st.pumpOn && decide (data.soilMoisture < SOIL_MOISTURE_LOW) && !data.isRaining then
    actuators_set_pump st true
  else if st.pumpOn && (decide (data.soilMoisture > SOIL_MOISTURE_HIGH) || data.isRaining) then
    actuators_set_pump st false
  else
    st

/-- Fertiliser-pump block of `actuators_auto_control` (`actuators.cpp`). -/
def fertStep (st : ActuatorState) (data : SensorData) : ActuatorState :=
  if !st.fertOn && decide (data.phValue < PH_LOW_THRESH) then
    actuators_set_fert st true
  else if st.fertOn && decide (data.phValue > PH_HIGH_THRESH) then
    actuators_set_fert st false
  else
    st

/-- Grow-light block of `actuators_auto_control` (`actuators.cpp`). -/
def lightStep (st : ActuatorState) (data : SensorData) : ActuatorState :=
  if !st.lightOn && decide (data.lightLevel < LIGHT_LOW_THRESH) then
    actuators_set_light st true
  else if st.lightOn && decide (data.lightLevel > LIGHT_HIGH_THRESH) then
    actuators_set_light st false
  else
    st

/-- Ventilation-fan block of `actuators_auto_control` (`actuators.cpp`):
`highTemp = temperature > TEMP_HIGH_THRESH`,
`highHumidity = humidity > HUMIDITY_HIGH_THRESH`; turn on when off and
(highTemp or highHumidity); turn off when on, `temperature < TEMP_LOW_THRESH`
and not highHumidity. -/
def fanStep (st : ActuatorState) (data : SensorData) : ActuatorState :=
  let highTemp := fGt data.temperature TEMP_HIGH_THRESH
  let highHumidity := fGt data.humidity HUMIDITY_HIGH_THRESH
  if !st.fanOn && (highTemp || highHumidity) then
    actuators_set_fan st true
  else if st.fanOn && fLt data.temperature TEMP_LOW_THRESH && !highHumidity then
    actuators_set_fan st false
  else
    st

/-- `actuators_auto_control` from `actuators.cpp`: early return on
`!data.valid`, otherwise the four independent hysteresis blocks applied to the
module-global state in source order. -/
def actuators_auto_control (st : ActuatorState) (data : SensorData) : ActuatorState :=
  if !data.valid then st
  else fanStep (lightStep (fertStep (pumpStep st data) data) data) data

/-- Caller-visible outcome of one call to `actuators_auto_control`: the new
value of the module-global state paired with the C function's return value,
which is `void` (embedded as `Unit`) — the function's signature is
`void actuators_auto_control(const SensorData &data)`. -/
def actuators_auto_control_call (st : ActuatorState) (data : SensorData) :
    ActuatorState × Unit :=
  (actuators_auto_control st data, ())

/-- A sequence of consecutive automatic policy cycles, one per snapshot. -/
def runCycles (st : ActuatorState) (snaps : List SensorData) : ActuatorState :=
  snaps.foldl actuators_auto_control st

/-! Concrete fixtures used by witnesses and counterexamples. -/

/-- All four actuators off (the startup state set by `actuators_init`). -/
def allOff : ActuatorState := ⟨false, false, false, false⟩

/-- State with only the water pump running. -/
def pumpOnState : ActuatorState := ⟨true, false, false, false⟩

/-- A valid snapshot sitting in every dead zone: no rule fires on it. -/
def quietSnap : SensorData :=
  ⟨some 25, some 50, 50, 6, 400, 1500, false, true⟩

/-- An invalid snapshot (same readings as `quietSnap`, `valid := false`). -/
def invalidSnap : SensorData :=
  ⟨some 25, some 50, 50, 6, 400, 1500, false, false⟩

/-- A valid rainy snapshot whose soil moisture is strictly inside the
hysteresis dead zone (30 < 50 < 70) but with `isRaining = true`. -/
def rainDeadZoneSnap : SensorData :=
  ⟨some 25, some 50, 50, 6, 400, 500, true, true⟩

/-- Fan scenario, cycle 1: temperature 36 °C, humidity 40 %. -/
def fanSnap1 : SensorData :=
  ⟨some 36, some 40, 50, 6, 400, 1500, false, true⟩

/-- Fan scenario, cycle 2: temperature 29 °C, humidity 90 %. -/
def fanSnap2 : SensorData :=
  ⟨some 29, some 90, 50, 6, 400, 1500, false, true⟩

/-- Fan scenario, cycle 3: temperature 29 °C, humidity 50 %. -/
def fanSnap3 : SensorData :=
  ⟨some 29, some 50, 50, 6, 400, 1500, false, true⟩

/-- Snapshot list for the non-chatter witness: dead-zone snapshots with an
invalid one interleaved. -/
def nonChatterList : List SensorData := [quietSnap, invalidSnap, quietSnap]

/-! Helper lemmas. -/

/-- The fertiliser block never touches the pump flag. -/
theorem fertStep_pumpOn (st : ActuatorState) (d : SensorData) :
    (fertStep st d).pumpOn = st.pumpOn := by
  unfold fertStep actuators_set_fert
  split
  · rfl
  · split <;> rfl

/-- The grow-light block never touches the pump flag. -/
theorem lightStep_pumpOn (st : ActuatorState) (d : SensorData) :
    (lightStep st d).pumpOn = st.pumpOn := by
  unfold lightStep actuators_set_light
  split
  · rfl
  · split <;> rfl

/-- The fan block never touches the pump flag. -/
theorem fanStep_pumpOn (st : ActuatorState) (d : SensorData) :
    (fanStep st d).pumpOn = st.pumpOn := by
  unfold fanStep actuators_set_fan
  dsimp only
  split
  · rfl
  · split <;> rfl

/-- The pump block never touches the fan flag. -/
theorem pumpStep_fanOn (st : ActuatorState) (d : SensorData) :
    (pumpStep st d).fanOn = st.fanOn := by
  unfold pumpStep actuators_set_pump
  split
  · rfl
  · split <;> rfl

/-- The fertiliser block never touches the fan flag. -/
theorem fertStep_fanOn (st : ActuatorState) (d : SensorData) :
    (fertStep st d).fanOn = st.fanOn := by
  unfold fertStep actuators_set_fert
  split
  · rfl
  · split <;> rfl

/-- The grow-light block never touches the fan flag. -/
theorem lightStep_fanOn (st : ActuatorState) (d : SensorData) :
    (lightStep st d).fanOn = st.fanOn := by
  unfold lightStep actuators_set_light
  split
  · rfl
  · split <;> rfl

/-- Auxiliary form of the invalid-snapshot early return. -/
theorem auto_control_invalid_aux (st : ActuatorState) (d : SensorData)
    (h : d.valid = false) : actuators_auto_control st d = st := by
  unfold actuators_auto_control
  simp [h]

/-- On a valid snapshot, the pump flag after a cycle is decided by the pump
block alone. -/
theorem auto_pumpOn_chain (st : ActuatorState) (d : SensorData) (hv : d.valid = true) :
    (actuators_auto_control st d).pumpOn = (pumpStep st d).pumpOn := by
  unfold actuators_auto_control
  rw [hv]
  simp only [Bool.not_true, Bool.false_eq_true, if_false]
  rw [fanStep_pumpOn, lightStep_pumpOn, fertStep_pumpOn]

/-- Characterization of the pump flag after one cycle on a valid snapshot. -/
theorem auto_pumpOn_eq (st : ActuatorState) (d : SensorData) (hv : d.valid = true) :
    (actuators_auto_control st d).pumpOn =
      if st.pumpOn = false ∧ d.soilMoisture < SOIL_MOISTURE_LOW ∧ d.isRaining = false then
        true
      else if st.pumpOn = true ∧ (d.soilMoisture > SOIL_MOISTURE_HIGH ∨ d.isRaining = true) then
        false
      else
        st.pumpOn := by
  rw [auto_pumpOn_chain st d hv]
  unfold pumpStep actuators_set_pump
  split_ifs <;> simp_all

/-- Characterization of the fan flag after one cycle on a valid snapshot with
numeric (non-NaN) temperature and humidity. -/
theorem auto_fanOn_eq (st : ActuatorState) (d : SensorData) (t h : ℚ)
    (hv : d.valid = true) (ht : d.temperature = some t) (hh : d.humidity = some h) :
    (actuators_auto_control st d).fanOn =
      if st.fanOn = false ∧ (TEMP_HIGH_THRESH < t ∨ HUMIDITY_HIGH_THRESH < h) then
        true
      else if st.fanOn = true ∧ t < TEMP_LOW_THRESH ∧ h ≤ HUMIDITY_HIGH_THRESH then
        false
      else
        st.fanOn := by
  have hchain : (actuators_auto_control st d).fanOn =
      (fanStep (lightStep (fertStep (pumpStep st d) d) d) d).fanOn := by
    unfold actuators_auto_control
    rw [hv]
    simp only [Bool.not_true, Bool.false_eq_true, if_false]
  have hmid : (lightStep (fertStep (pumpStep st d) d) d).fanOn = st.fanOn := by
    rw [lightStep_fanOn, fertStep_fanOn, pumpStep_fanOn]
  rw [hchain]
  unfold fanStep actuators_set_fan
  dsimp only
  rw [hmid, ht, hh]
  simp only [fLt, fGt]
  split_ifs <;> simp_all [not_lt]

/-! Claim theorems. -/

/-- C1: for every snapshot with `valid = false`, invoking the automatic policy
(`actuators_auto_control`) leaves the `ActuatorState` bit-for-bit unchanged:
none of `pumpOn`, `fertOn`, `lightOn`, `fanOn` is modified. -/
theorem C1_invalid_snapshot_frame (st : ActuatorState) (d : SensorData)
    (h : d.valid = false) :
    actuators_auto_control st d = st :=
  auto_control_invalid_aux st d h

/-- Witness for C1 at a concrete invalid snapshot and concrete state. -/
theorem C1_invalid_snapshot_frame_witness :
    invalidSnap.valid = false ∧ actuators_auto_control pumpOnState invalidSnap = pumpOnState :=
  ⟨rfl, C1_invalid_snapshot_frame pumpOnState invalidSnap rfl⟩

/-- C2: on a valid snapshot, one policy cycle turns the pump on exactly when it
is currently off, `soilMoisture < SOIL_MOISTURE_LOW` and it is not raining;
turns it off exactly when it is currently on and
(`soilMoisture > SOIL_MOISTURE_HIGH` or it is raining); and otherwise leaves
the pump state unchanged. -/
theorem C2_pump_hysteresis_rule (st : ActuatorState) (d : SensorData)
    (hv : d.valid = true) :
    ((st.pumpOn = false ∧ (actuators_auto_control st d).pumpOn = true) ↔
      (st.pumpOn = false ∧ d.soilMoisture < SOIL_MOISTURE_LOW ∧ d.isRaining = false)) ∧
    ((st.pumpOn = true ∧ (actuators_auto_control st d).pumpOn = false) ↔
      (st.pumpOn = true ∧ (d.soilMoisture > SOIL_MOISTURE_HIGH ∨ d.isRaining = true))) ∧
    (¬(st.pumpOn = false ∧ d.soilMoisture < SOIL_MOISTURE_LOW ∧ d.isRaining = false) →
      ¬(st.pumpOn = true ∧ (d.soilMoisture > SOIL_MOISTURE_HIGH ∨ d.isRaining = true)) →
      (actuators_auto_control st d).pumpOn = st.pumpOn) := by
  rw [auto_pumpOn_eq st d hv] at *
  by_cases hp : st.pumpOn = true <;> by_cases hr : d.isRaining = true <;>
    by_cases h30 : d.soilMoisture < SOIL_MOISTURE_LOW <;>
    by_cases h70 : d.soilMoisture > SOIL_MOISTURE_HIGH <;>
    simp_all

/-- Witness for C2: a dry, rain-free snapshot turns the pump on from off. -/
theorem C2_pump_hysteresis_rule_witness :
    quietSnap.valid = true ∧
    ((allOff.pumpOn = false ∧ (actuators_auto_control allOff quietSnap).pumpOn = true) ↔
      (allOff.pumpOn = false ∧ quietSnap.soilMoisture < SOIL_MOISTURE_LOW ∧
        quietSnap.isRaining = false)) ∧
    ((allOff.pumpOn = true ∧ (actuators_auto_control allOff quietSnap).pumpOn = false) ↔
      (allOff.pumpOn = true ∧
        (quietSnap.soilMoisture > SOIL_MOISTURE_HIGH ∨ quietSnap.isRaining = true))) ∧
    (¬(allOff.pumpOn = false ∧ quietSnap.soilMoisture < SOIL_MOISTURE_LOW ∧
        quietSnap.isRaining = false) →
      ¬(allOff.pumpOn = true ∧
        (quietSnap.soilMoisture > SOIL_MOISTURE_HIGH ∨ quietSnap.isRaining = true)) →
      (actuators_auto_control allOff quietSnap).pumpOn = allOff.pumpOn) :=
  ⟨rfl, C2_pump_hysteresis_rule allOff quietSnap rfl⟩

/-- C4: after any single policy cycle on a valid snapshot with
`isRaining = true`, the pump is off — regardless of the pump's prior state and
even when `soilMoisture < SOIL_MOISTURE_LOW` on that same cycle. -/
theorem C4_rain_override (st : ActuatorState) (d : SensorData)
    (hv : d.valid = true) (hr : d.isRaining = true) :
    (actuators_auto_control st d).pumpOn = false := by
  rw [auto_pumpOn_eq st d hv]
  by_cases hp : st.pumpOn = true <;> simp_all

/-- Witness for C4: a raining dead-zone snapshot shuts off a running pump. -/
theorem C4_rain_override_witness :
    rainDeadZoneSnap.valid = true ∧ rainDeadZoneSnap.isRaining = true ∧
    (actuators_auto_control pumpOnState rainDeadZoneSnap).pumpOn = false :=
  ⟨rfl, rfl, C4_rain_override pumpOnState rainDeadZoneSnap rfl rfl⟩

/-- C3: on a valid snapshot with numeric readings, one policy cycle turns the
fan on exactly when it is currently off and (`temperature > TEMP_HIGH_THRESH`
or `humidity > HUMIDITY_HIGH_THRESH`), and turns it off exactly when it is
currently on, `temperature < TEMP_LOW_THRESH` and
`humidity ≤ HUMIDITY_HIGH_THRESH`; moreover, starting from fan off, the
three-cycle run (36 °C, 40 %), (29 °C, 90 %), (29 °C, 50 %) yields fan on
after cycle 1, still on after cycle 2, and off after cycle 3. -/
theorem C3_fan_rule_and_scenario :
    (∀ (st : ActuatorState) (d : SensorData) (t h : ℚ),
      d.valid = true → d.temperature = some t → d.humidity = some h →
      (((st.fanOn = false ∧ (actuators_auto_control st d).fanOn = true) ↔
          (st.fanOn = false ∧ (t > TEMP_HIGH_THRESH ∨ h > HUMIDITY_HIGH_THRESH))) ∧
        ((st.fanOn = true ∧ (actuators_auto_control st d).fanOn = false) ↔
          (st.fanOn = true ∧ t < TEMP_LOW_THRESH ∧ h ≤ HUMIDITY_HIGH_THRESH)))) ∧
    (∀ (st : ActuatorState) (s1 s2 s3 : SensorData),
      st.fanOn = false →
      s1.valid = true → s1.temperature = some 36 → s1.humidity = some 40 →
      s2.valid = true → s2.temperature = some 29 → s2.humidity = some 90 →
      s3.valid = true → s3.temperature = some 29 → s3.humidity = some 50 →
      (actuators_auto_control st s1).fanOn = true ∧
      (actuators_auto_control (actuators_auto_control st s1) s2).fanOn = true ∧
      (actuators_auto_control
        (actuators_auto_control (actuators_auto_control st s1) s2) s3).fanOn = false) := by
  constructor
  · intro st d t h hv ht hh
    rw [auto_fanOn_eq st d t h hv ht hh]
    by_cases hf : st.fanOn = true <;> by_cases h35 : TEMP_HIGH_THRESH < t <;>
      by_cases h85 : HUMIDITY_HIGH_THRESH < h <;> by_cases h30 : t < TEMP_LOW_THRESH <;>
      simp_all [not_lt]
  · intro st s1 s2 s3 hf hv1 ht1 hh1 hv2 ht2 hh2 hv3 ht3 hh3
    have step1 : (actuators_auto_control st s1).fanOn = true := by
      rw [auto_fanOn_eq st s1 36 40 hv1 ht1 hh1]
      rw [if_pos ⟨hf, Or.inl (by norm_num [TEMP_HIGH_THRESH])⟩]
    have step2 : (actuators_auto_control (actuators_auto_control st s1) s2).fanOn = true := by
      rw [auto_fanOn_eq _ s2 29 90 hv2 ht2 hh2]
      rw [if_neg (by simp [step1]), if_neg (by norm_num [HUMIDITY_HIGH_THRESH])]
      exact step1
    refine ⟨step1, step2, ?_⟩
    rw [auto_fanOn_eq _ s3 29 50 hv3 ht3 hh3]
    rw [if_neg (by simp [step2])]
    rw [if_pos ⟨step2, by norm_num [TEMP_LOW_THRESH], by norm_num [HUMIDITY_HIGH_THRESH]⟩]

/-- Witness for C3's quantified parts at concrete states and snapshots. -/
theorem C3_fan_rule_and_scenario_witness :
    quietSnap.valid = true ∧ quietSnap.temperature = some 25 ∧ quietSnap.humidity = some 50 ∧
    (((allOff.fanOn = false ∧ (actuators_auto_control allOff quietSnap).fanOn = true) ↔
        (allOff.fanOn = false ∧
          ((25 : ℚ) > TEMP_HIGH_THRESH ∨ (50 : ℚ) > HUMIDITY_HIGH_THRESH))) ∧
      ((allOff.fanOn = true ∧ (actuators_auto_control allOff quietSnap).fanOn = false) ↔
        (allOff.fanOn = true ∧ (25 : ℚ) < TEMP_LOW_THRESH ∧
          (50 : ℚ) ≤ HUMIDITY_HIGH_THRESH))) ∧
    (actuators_auto_control allOff fanSnap1).fanOn = true ∧
    (actuators_auto_control (actuators_auto_control allOff fanSnap1) fanSnap2).fanOn = true ∧
    (actuators_auto_control
      (actuators_auto_control (actuators_auto_control allOff fanSnap1) fanSnap2)
      fanSnap3).fanOn = false :=
  ⟨rfl, rfl, rfl,
    C3_fan_rule_and_scenario.1 allOff quietSnap 25 50 rfl rfl rfl,
    C3_fan_rule_and_scenario.2 allOff fanSnap1 fanSnap2 fanSnap3
      rfl rfl rfl rfl rfl rfl rfl rfl rfl rfl⟩

/-- C5 counterexample: the claim "if every valid snapshot of a run of
consecutive cycles has soilMoisture strictly between `SOIL_MOISTURE_LOW` and
`SOIL_MOISTURE_HIGH`, the pump state never changes" is false as stated: on the
one-cycle sequence `[rainDeadZoneSnap]` (valid, soilMoisture 50, strictly
inside the 30..70 dead zone, but raining) a pump that is on turns off, because
the off-branch of the pump rule also fires on `isRaining` alone. -/
theorem C5_pump_nonchatter_cex :
    rainDeadZoneSnap.valid = true ∧
    SOIL_MOISTURE_LOW < rainDeadZoneSnap.soilMoisture ∧
    rainDeadZoneSnap.soilMoisture < SOIL_MOISTURE_HIGH ∧
    (runCycles pumpOnState [rainDeadZoneSnap]).pumpOn ≠ pumpOnState.pumpOn := by
  decide

/-- C5 amended: for every sequence of consecutive policy cycles whose valid
snapshots all have soilMoisture strictly between `SOIL_MOISTURE_LOW` and
`SOIL_MOISTURE_HIGH` and additionally report no rain, the pump state never
changes across the whole sequence. -/
theorem C5_pump_nonchatter_amended (st : ActuatorState) (snaps : List SensorData)
    (h : ∀ s ∈ snaps, s.valid = true →
      SOIL_MOISTURE_LOW < s.soilMoisture ∧ s.soilMoisture < SOIL_MOISTURE_HIGH ∧
        s.isRaining = false) :
    (runCycles st snaps).pumpOn = st.pumpOn := by
  induction snaps generalizing st with
  | nil => rfl
  | cons s rest ih =>
    have hstep : (actuators_auto_control st s).pumpOn = st.pumpOn := by
      by_cases hv : s.valid = true
      · obtain ⟨hlo, hhi, hr⟩ := h s (List.mem_cons_self s rest) hv
        rw [auto_pumpOn_eq st s hv]
        rw [if_neg (by simp [SOIL_MOISTURE_LOW] at hlo ⊢; omega)]
        rw [if_neg (by simp [SOIL_MOISTURE_HIGH, hr] at hhi ⊢; omega)]
      · rw [auto_control_invalid_aux st s (by simpa using hv)]
    have hrest := ih (actuators_auto_control st s)
      (fun s2 hm hv => h s2 (List.mem_cons_of_mem s hm) hv)
    unfold runCycles at *
    simp only [List.foldl_cons]
    rw [hrest, hstep]

/-- Witness for C5's amended statement on a concrete three-cycle sequence
(dead-zone valid, invalid, dead-zone valid) from a pump-on state. -/
theorem C5_pump_nonchatter_amended_witness :
    (∀ s ∈ nonChatterList, s.valid = true →
      SOIL_MOISTURE_LOW < s.soilMoisture ∧ s.soilMoisture < SOIL_MOISTURE_HIGH ∧
        s.isRaining = false) ∧
    (runCycles pumpOnState nonChatterList).pumpOn = pumpOnState.pumpOn :=
  ⟨by decide, C5_pump_nonchatter_amended pumpOnState nonChatterList (by decide)⟩

/-- C6: for every integer raw input, `ph_adc_to_value` returns a value in
[0, 14], and whenever the exact linear function `spec_phLinear` of the raw
input lies inside [0, 14], `ph_adc_to_value` equals it. -/
theorem C6_ph_range_and_linearity (raw : ℤ) :
    0 ≤ ph_adc_to_value raw ∧ ph_adc_to_value raw ≤ 14 ∧
    (0 ≤ spec_phLinear raw → spec_phLinear raw ≤ 14 →
      ph_adc_to_value raw = spec_phLinear raw) := by
  simp only [ph_adc_to_value, spec_phLinear, constrainQ]
  split_ifs with h1 h2
  · exact ⟨le_refl 0, by norm_num, fun ha hb => by linarith⟩
  · exact ⟨by norm_num, le_refl 14, fun ha hb => by linarith⟩
  · exact ⟨by linarith [not_lt.mp h1], by linarith [not_lt.mp h2], fun ha hb => rfl⟩

/-- Witness for C6 at raw count 2000, whose linear value lies inside [0, 14]. -/
theorem C6_ph_range_and_linearity_witness :
    0 ≤ spec_phLinear 2000 ∧ spec_phLinear 2000 ≤ 14 ∧
    ph_adc_to_value 2000 = spec_phLinear 2000 := by
  have h0 : 0 ≤ spec_phLinear 2000 := by
    norm_num [spec_phLinear, PH_SENSOR_VREF, PH_OFFSET, Rat.mkRat_eq_div]
  have h14 : spec_phLinear 2000 ≤ 14 := by
    norm_num [spec_phLinear, PH_SENSOR_VREF, PH_OFFSET, Rat.mkRat_eq_div]
  exact ⟨h0, h14, (C6_ph_range_and_linearity 2000).2.2 h0 h14⟩

/-- C7: the soil conversion maps the dry calibration count to 0, the wet
calibration count to 100, and every integer raw input into [0, 100]. -/
theorem C7_soil_calibration_points_and_range :
    soil_adc_to_percent SOIL_DRY_VALUE = 0 ∧
    soil_adc_to_percent SOIL_WET_VALUE = 100 ∧
    ∀ raw : ℤ, 0 ≤ soil_adc_to_percent raw ∧ soil_adc_to_percent raw ≤ 100 := by
  refine ⟨by decide, by decide, fun raw => ?_⟩
  unfold soil_adc_to_percent constrain
  dsimp only
  split_ifs <;> omega

/-- Truncating division by -1700 is negated truncating division by 1700. -/
theorem tdiv_neg1700_eq (n : ℤ) : n.tdiv (-1700) = -(n.tdiv 1700) := by
  simp [Int.tdiv_neg n 1700]

/-- Truncating division by 1700 is monotone on nonnegative numerators. -/
theorem tdiv1700_le (m n : ℤ) (hm : 0 ≤ m) (hmn : m ≤ n) :
    m.tdiv 1700 ≤ n.tdiv 1700 := by
  rw [Int.tdiv_eq_ediv hm (by norm_num), Int.tdiv_eq_ediv (le_trans hm hmn) (by norm_num)]
  exact Int.ediv_le_ediv (by norm_num) hmn

/-- Truncating division by 1700 is monotone on all integer numerators. -/
theorem tdiv1700_mono (m n : ℤ) (hmn : m ≤ n) : m.tdiv 1700 ≤ n.tdiv 1700 := by
  rcases le_or_lt 0 m with hm | hm
  · exact tdiv1700_le m n hm hmn
  · rcases le_or_lt 0 n with hn | hn
    · have h1 : m.tdiv 1700 ≤ 0 := by
        have h2 : m.tdiv 1700 = -((-m).tdiv 1700) := by
          conv_lhs => rw [show m = -(-m) by ring]
          rw [Int.neg_tdiv]
        have h3 : 0 ≤ (-m).tdiv 1700 := Int.tdiv_nonneg (by omega) (by norm_num)
        omega
      have h4 : 0 ≤ n.tdiv 1700 := Int.tdiv_nonneg hn (by norm_num)
      omega
    · have h1 : m.tdiv 1700 = -((-m).tdiv 1700) := by
        conv_lhs => rw [show m = -(-m) by ring]
        rw [Int.neg_tdiv]
      have h2 : n.tdiv 1700 = -((-n).tdiv 1700) := by
        conv_lhs => rw [show n = -(-n) by ring]
        rw [Int.neg_tdiv]
      have h4 := tdiv1700_le (-n) (-m) (by omega) (by omega)
      omega

/-- The soil `map` call in closed form: negated truncating division by 1700. -/
theorem map_soil_eq (raw : ℤ) :
    arduinoMap raw SOIL_DRY_VALUE SOIL_WET_VALUE 0 100 =
      -(((raw - 3200) * 100).tdiv 1700) := by
  unfold arduinoMap SOIL_DRY_VALUE SOIL_WET_VALUE
  norm_num [tdiv_neg1700_eq]

/-- C8: `soil_adc_to_percent` is monotone in the dry-to-wet direction: as the
raw count decreases (moving from the dry calibration value toward the wet
one), the returned percentage is non-decreasing. -/
theorem C8_soil_percent_monotone (a b : ℤ) (hab : a ≤ b) :
    soil_adc_to_percent b ≤ soil_adc_to_percent a := by
  unfold soil_adc_to_percent
  dsimp only
  rw [map_soil_eq, map_soil_eq]
  have key := tdiv1700_mono ((a - 3200) * 100) ((b - 3200) * 100) (by omega)
  unfold constrain
  split_ifs <;> omega

/-- Witness for C8 at the raw pair 1600 ≤ 3000. -/
theorem C8_soil_percent_monotone_witness :
    (1600 : ℤ) ≤ 3000 ∧ soil_adc_to_percent 3000 ≤ soil_adc_to_percent 1600 :=
  ⟨by decide, C8_soil_percent_monotone 1600 3000 (by decide)⟩

/-- C9 counterexample: the claim that a skipped cycle on an invalid snapshot
is reported to the caller as a boolean failure result is false: the C function
is `void`, so the caller-visible outcome of the call (new global state paired
with the `Unit` return value, `actuators_auto_control_call`) on an invalid
snapshot is identical to the outcome on a fully valid snapshot on which no
rule fires — the caller has no result to branch on. -/
theorem C9_no_failure_report_cex :
    invalidSnap.valid = false ∧ quietSnap.valid = true ∧
    actuators_auto_control_call allOff invalidSnap =
      actuators_auto_control_call allOff quietSnap := by
  decide

/-- C9 amended: on an invalid snapshot the cycle is skipped with the state
unchanged, but `actuators_auto_control` returns `void`: the caller-visible
outcome is just `(st, ())`, indistinguishable from any valid cycle that
happens to fire no transition, so no failure indication reaches the caller. -/
theorem C9_skip_unreported_amended (st : ActuatorState) (d : SensorData)
    (h : d.valid = false) :
    actuators_auto_control_call st d = (st, ()) ∧
    ∀ d2 : SensorData, actuators_auto_control st d2 = st →
      actuators_auto_control_call st d2 = actuators_auto_control_call st d := by
  constructor
  · unfold actuators_auto_control_call
    rw [auto_control_invalid_aux st d h]
  · intro d2 h2
    unfold actuators_auto_control_call
    rw [h2, auto_control_invalid_aux st d h]

/-- Witness for C9's amended statement at a concrete invalid snapshot. -/
theorem C9_skip_unreported_amended_witness :
    invalidSnap.valid = false ∧
    actuators_auto_control_call allOff invalidSnap = (allOff, ()) :=
  ⟨rfl, (C9_skip_unreported_amended allOff invalidSnap rfl).1⟩

/-- C10: when the DHT22 temperature or humidity reading is NaN, `sensors_read`
returns false having written only `temperature`, `humidity` and `valid` (set
to false) in the caller-supplied struct; `soilMoisture`, `phValue`,
`lightLevel`, `rainLevel` and `isRaining` keep their previous (stale)
values. -/
theorem C10_sensors_read_nan_frame (dhtTemp dhtHum : FloatVal)
    (soilRaw phRaw lightRaw rainRaw : ℤ) (data : SensorData)
    (h : dhtTemp = none ∨ dhtHum = none) :
    (sensors_read dhtTemp dhtHum soilRaw phRaw lightRaw rainRaw data).2 = false ∧
    (sensors_read dhtTemp dhtHum soilRaw phRaw lightRaw rainRaw data).1 =
      { data with temperature := dhtTemp, humidity := dhtHum, valid := false } := by
  unfold sensors_read
  rcases h with h | h <;> subst h <;> simp

/-- Witness for C10 with a NaN temperature read and stale prior fields. -/
theorem C10_sensors_read_nan_frame_witness :
    ((none : FloatVal) = none ∨ (some 50 : FloatVal) = none) ∧
    (sensors_read none (some 50) 777 888 999 111 quietSnap).2 = false ∧
    (sensors_read none (some 50) 777 888 999 111 quietSnap).1 =
      { quietSnap with temperature := none, humidity := some 50, valid := false } :=
  ⟨Or.inl rfl,
    C10_sensors_read_nan_frame none (some 50) 777 888 999 111 quietSnap (Or.inl rfl)⟩
